import Mathlib

/-!
Shallow embedding of the CXone deployment pipeline
(src/devops-pipeline-example.py) and verification of the frozen claims
about it.

The Python program is a client that sequences three remote calls
(validate, test, deploy) for one script file and one environment.  The
embedding models:

  * JSON/YAML-shaped dynamic values (`JVal`) with Python truthiness and
    the `dict.get(key, default)` operation;
  * the outside world (`World`): the readable files, the YAML parser,
    `os.path.exists`, `os.environ`, and the HTTP transport.  The
    transport oracle returns either a decoded JSON response or an error;
    an error stands for any `requests` exception, including the one
    `raise_for_status` raises on a non-success HTTP status;
  * the observable actions as an event trace (`Event`): every `logger`
    call and every outbound API request.

Each method of `CXoneDeploymentPipeline` becomes a pure function from a
`World` and a `Pipeline` to a pair of (event trace, result).  Exception
text produced by Python `str(e)` for file errors is abstracted by the
fixed rendering `fileErrStr`; no claim depends on exception wording.
-/

/-- Dynamic JSON/YAML-shaped values, as produced by `yaml.safe_load` and
`response.json()` in the source. -/
inductive JVal where
  | jNull : JVal
  | jBool (b : Bool) : JVal
  | jNum (n : Int) : JVal
  | jStr (s : String) : JVal
  | jArr (xs : List JVal) : JVal
  | jObj (fs : List (String × JVal)) : JVal

/-- Python truthiness of a dynamic value (`if not x`, `if x`): `None`,
`False`, `0`, the empty string and empty containers are falsy. -/
def truthy : JVal → Bool
  | JVal.jNull => false
  | JVal.jBool b => b
  | JVal.jNum n => !(n == 0)
  | JVal.jStr s => !(s == "")
  | JVal.jArr xs => !xs.isEmpty
  | JVal.jObj fs => !fs.isEmpty

/-- First-match association lookup, the semantics of Python dict keying
(Python dicts have no duplicate keys). -/
def lookupStr : List (String × JVal) → String → Option JVal
  | [], _ => none
  | (k, v) :: rest, key => if k == key then some v else lookupStr rest key

/-- The `d.get(key, default)` operation of the source.  On a non-dict
value the source would raise; every claim concerns dict-shaped values,
so the non-dict case returns the default. -/
def jGetD (v : JVal) (key : String) (dflt : JVal) : JVal :=
  match v with
  | JVal.jObj fs =>
    match lookupStr fs key with
    | some x => x
    | none => dflt
  | _ => dflt

/-- View a dynamic value as the list it is iterated as (`for x in xs`).
Every claim concerns list-shaped `errors`/`failures` fields; iterating a
non-list would raise in the source and yield the same boolean result. -/
def jArrList : JVal → List JVal
  | JVal.jArr xs => xs
  | _ => []

/-- Python `==` as the source applies it: the compared values are the
scalar `passed`/`total` counts of a test response.  Numbers compare by
value (and `bool` is an `int` in Python); container comparison is not
needed by the pipeline. -/
def pyEq : JVal → JVal → Bool
  | JVal.jNull, JVal.jNull => true
  | JVal.jBool a, JVal.jBool b => a == b
  | JVal.jBool a, JVal.jNum n => (if a then (1 : Int) else 0) == n
  | JVal.jNum n, JVal.jBool a => n == (if a then (1 : Int) else 0)
  | JVal.jNum a, JVal.jNum b => a == b
  | JVal.jStr a, JVal.jStr b => a == b
  | _, _ => false

/-- Rendering of a dynamic value inside an f-string (`str(x)`).
Containers are abstracted by placeholders; no claim reads the rendering
of a container. -/
def pyStrOf : JVal → String
  | JVal.jNull => "None"
  | JVal.jBool b => if b then "True" else "False"
  | JVal.jNum n => toString n
  | JVal.jStr s => s
  | JVal.jArr _ => "<list>"
  | JVal.jObj _ => "<dict>"

/-- Severity of a `logger` call in the source. -/
inductive LogLevel where
  | info : LogLevel
  | warning : LogLevel
  | error : LogLevel

/-- Decidable equality of log levels. -/
def levelEq : LogLevel → LogLevel → Bool
  | LogLevel.info, LogLevel.info => true
  | LogLevel.warning, LogLevel.warning => true
  | LogLevel.error, LogLevel.error => true
  | _, _ => false

/-- One observable action of the program: a log line, or one outbound
API request (the `requests.<method>` call inside `_api_request`). -/
inductive Event where
  | log (lvl : LogLevel) (msg : String) : Event
  | apiCall (endpoint : String) (method : String) (data : JVal) : Event

/-- Test whether an event is an API call to the given endpoint. -/
def isCallTo (ep : String) : Event → Bool
  | Event.apiCall e _ _ => e == ep
  | _ => false

/-- Test whether an event is any API call at all. -/
def isApiCall : Event → Bool
  | Event.apiCall _ _ _ => true
  | _ => false

/-- Test whether an event is a log line with the given level and text. -/
def isLog (lvl : LogLevel) (msg : String) : Event → Bool
  | Event.log l m => levelEq lvl l && m == msg
  | _ => false

/-- Whether a trace contains an API call to the given endpoint. -/
def hasCallTo (tr : List Event) (ep : String) : Bool :=
  tr.any (isCallTo ep)

/-- Whether a trace contains any API call. -/
def hasApiCall (tr : List Event) : Bool :=
  tr.any isApiCall

/-- Whether a trace contains the given log line. -/
def hasLog (tr : List Event) (lvl : LogLevel) (msg : String) : Bool :=
  tr.any (isLog lvl msg)

/-- Stand-in for Python `str(e)` of a file I/O exception on `path`.  No
claim depends on the exception wording. -/
def fileErrStr (path : String) : String :=
  "could not open " ++ path

/-- The suffix of a path after its last slash, `os.path.basename` on a
POSIX path. -/
def baseNameL (l : List Char) : List Char :=
  (l.reverse.takeWhile fun c => !(c == '/')).reverse

/-- The prefix of a path up to and including its last slash: the `head`
that `posixpath.split` computes before stripping. -/
def dirHeadL (l : List Char) : List Char :=
  (l.reverse.dropWhile fun c => !(c == '/')).reverse

/-- The directory part of a path, `os.path.dirname` on a POSIX path:
the head up to the last slash, with trailing slashes stripped unless the
head consists only of slashes. -/
def dirNameL (l : List Char) : List Char :=
  let head := dirHeadL l
  if head.any fun c => !(c == '/') then
    (head.reverse.dropWhile fun c => c == '/').reverse
  else head

/-- Whether a path begins with a slash (an absolute component, which
`os.path.join` restarts from). -/
def startsWithSlash (l : List Char) : Bool :=
  match l with
  | [] => false
  | c :: _ => c == '/'

/-- Whether a path ends with a slash. -/
def endsWithSlash (l : List Char) : Bool :=
  match l.getLast? with
  | some c => c == '/'
  | none => false

/-- Two-argument `os.path.join` on POSIX paths. -/
def joinL (a b : List Char) : List Char :=
  if startsWithSlash b then b
  else if a.isEmpty || endsWithSlash a then a ++ b
  else a ++ '/' :: b

/-- The base name of a path cut at its first dot:
`os.path.basename(p).split('.')[0]` in the source. -/
def scriptStemL (l : List Char) : List Char :=
  (baseNameL l).takeWhile fun c => !(c == '.')

/-- String form of `os.path.dirname`. -/
def dirName (s : String) : String :=
  ⟨dirNameL s.data⟩

/-- String form of the derived script name used in the deploy payload. -/
def scriptName (s : String) : String :=
  ⟨scriptStemL s.data⟩

/-- The conventional test-suite path `run_pipeline` derives:
`os.path.join(os.path.dirname(p), 'tests', basename(p).split('.')[0] + "_tests.yml")`. -/
def derivedTestPath (s : String) : String :=
  ⟨joinL (joinL (dirNameL s.data) "tests".data)
    (scriptStemL s.data ++ "_tests.yml".data)⟩

/-- The world the program runs against: readable files and their text,
the YAML parser, `os.path.exists`, `os.environ`, the HTTP transport and
the clock.  A `files` result of `none` means `open` raises; a transport
result of `Except.error` means the `requests` call or
`raise_for_status` raises. -/
structure World where
  files : String → Option String
  parseYaml : String → Except String JVal
  pathExists : String → Bool
  env : String → Option String
  http : String → String → JVal → Except String JVal
  nowIso : String

/-- The state `CXoneDeploymentPipeline.__init__` establishes. -/
structure Pipeline where
  config_path : String
  config : JVal
  api_base_url : JVal
  api_key : JVal

/-- The URL `_api_request` builds: `f"{self.api_base_url}/{endpoint}"`. -/
def apiUrl (p : Pipeline) (endpoint : String) : String :=
  pyStrOf p.api_base_url ++ "/" ++ endpoint

/-- Embedding of `_api_request`: dispatch on the HTTP method, perform
the transport call (recorded as an `Event.apiCall`), and on an exception
log it and re-raise.  An unsupported method raises before any call. -/
def apiRequest (w : World) (p : Pipeline) (endpoint method : String)
    (data : JVal) : List Event × Except String JVal :=
  if method == "GET" || method == "POST" || method == "PUT" || method == "DELETE" then
    match w.http (apiUrl p endpoint) method data with
    | Except.ok resp => ([Event.apiCall endpoint method data], Except.ok resp)
    | Except.error e =>
      ([Event.apiCall endpoint method data,
        Event.log LogLevel.error ("API request failed: " ++ e)],
       Except.error e)
  else ([], Except.error ("Unsupported HTTP method: " ++ method))

/-- The log line emitted for one entry of a validation error list. -/
def validationErrorMsg (er : JVal) : String :=
  "Validation error: " ++ pyStrOf (jGetD er "message" JVal.jNull) ++
    " at line " ++ pyStrOf (jGetD er "line" JVal.jNull)

/-- Embedding of `validate_script`. -/
def validate_script (w : World) (p : Pipeline) (script_path : String) :
    List Event × Bool :=
  let e0 := Event.log LogLevel.info ("Validating script: " ++ script_path)
  match w.files script_path with
  | none =>
    ([e0, Event.log LogLevel.error
        ("Script validation failed: " ++ fileErrStr script_path)], false)
  | some script_content =>
    let a := apiRequest w p "scripts/validate" "POST"
      (JVal.jObj [("content", JVal.jStr script_content)])
    match a.2 with
    | Except.error e =>
      (e0 :: a.1 ++ [Event.log LogLevel.error ("Script validation failed: " ++ e)],
       false)
    | Except.ok resp =>
      if truthy (jGetD resp "valid" (JVal.jBool false)) then
        (e0 :: a.1 ++
          [Event.log LogLevel.info ("Script validation successful: " ++ script_path)],
         true)
      else
        (e0 :: a.1 ++
          (jArrList (jGetD resp "errors" (JVal.jArr []))).map
            (fun er => Event.log LogLevel.error (validationErrorMsg er)),
         false)

/-- The log line emitted for one entry of a test failure list. -/
def testFailureMsg (f : JVal) : String :=
  "Test failure: " ++ pyStrOf (jGetD f "name" JVal.jNull) ++
    " - " ++ pyStrOf (jGetD f "message" JVal.jNull)

/-- Embedding of `run_tests`. -/
def run_tests (w : World) (p : Pipeline) (test_suite_path : String) :
    List Event × Bool :=
  let e0 := Event.log LogLevel.info ("Running test suite: " ++ test_suite_path)
  match w.files test_suite_path with
  | none =>
    ([e0, Event.log LogLevel.error
        ("Test execution failed: " ++ fileErrStr test_suite_path)], false)
  | some content =>
    match w.parseYaml content with
    | Except.error e =>
      ([e0, Event.log LogLevel.error ("Test execution failed: " ++ e)], false)
    | Except.ok test_suite =>
      let a := apiRequest w p "tests/run" "POST" test_suite
      match a.2 with
      | Except.error e =>
        (e0 :: a.1 ++ [Event.log LogLevel.error ("Test execution failed: " ++ e)],
         false)
      | Except.ok resp =>
        let total_tests := jGetD resp "total" (JVal.jNum 0)
        let passed_tests := jGetD resp "passed" (JVal.jNum 0)
        (e0 :: a.1 ++
          [Event.log LogLevel.info
            ("Tests completed: " ++ pyStrOf passed_tests ++ "/" ++
              pyStrOf total_tests ++ " passed")] ++
          (jArrList (jGetD resp "failures" (JVal.jArr []))).map
            (fun f => Event.log LogLevel.error (testFailureMsg f)),
         pyEq passed_tests total_tests)

/-- The environment-specific configuration `deploy_to_environment`
resolves: `self.config.get('environments', {}).get(environment, {})`. -/
def deployEnvConfig (p : Pipeline) (environment : String) : JVal :=
  jGetD (jGetD p.config "environments" (JVal.jObj [])) environment (JVal.jObj [])

/-- The entry for an environment name in the environment mapping of the
configuration, when the mapping has one. -/
def envEntry (p : Pipeline) (environment : String) : Option JVal :=
  match jGetD p.config "environments" (JVal.jObj []) with
  | JVal.jObj fs => lookupStr fs environment
  | _ => none

/-- The deployment payload `deploy_to_environment` builds. -/
def deployPayload (w : World) (p : Pipeline)
    (script_path environment script_content : String) : JVal :=
  JVal.jObj
    [("scriptContent", JVal.jStr script_content),
     ("environment", JVal.jStr environment),
     ("businessUnitId", jGetD (deployEnvConfig p environment) "business_unit_id" JVal.jNull),
     ("scriptName", JVal.jStr (scriptName script_path)),
     ("description", JVal.jStr ("Deployed by pipeline on " ++ w.nowIso))]

/-- Embedding of `deploy_to_environment`. -/
def deploy_to_environment (w : World) (p : Pipeline)
    (script_path environment : String) : List Event × Bool :=
  let e0 := Event.log LogLevel.info
    ("Deploying script to " ++ environment ++ ": " ++ script_path)
  match w.files script_path with
  | none =>
    ([e0, Event.log LogLevel.error
        ("Deployment failed: " ++ fileErrStr script_path)], false)
  | some script_content =>
    if truthy (deployEnvConfig p environment) then
      let a := apiRequest w p "scripts/deploy" "POST"
        (deployPayload w p script_path environment script_content)
      match a.2 with
      | Except.error e =>
        (e0 :: a.1 ++ [Event.log LogLevel.error ("Deployment failed: " ++ e)], false)
      | Except.ok resp =>
        let deployment_id := jGetD resp "deploymentId" JVal.jNull
        if truthy deployment_id then
          (e0 :: a.1 ++
            [Event.log LogLevel.info
              ("Deployment successful. Deployment ID: " ++ pyStrOf deployment_id)],
           true)
        else
          (e0 :: a.1 ++
            [Event.log LogLevel.error
              ("Deployment failed: " ++
                pyStrOf (jGetD resp "message" (JVal.jStr "Unknown error")))],
           false)
    else
      ([e0, Event.log LogLevel.error
          ("Environment configuration not found for: " ++ environment)], false)

/-- Embedding of `run_pipeline`: validate, then (unless skipped or the
conventional test-suite file is absent) test, then deploy, stopping at
the first failing stage. -/
def run_pipeline (w : World) (p : Pipeline) (script_path environment : String)
    (skip_tests : Bool) : List Event × Bool :=
  let e0 := Event.log LogLevel.info
    ("Starting deployment pipeline for " ++ script_path ++ " to " ++ environment)
  let v := validate_script w p script_path
  if v.2 then
    let t : List Event × Bool :=
      if skip_tests then ([], true)
      else
        let test_suite_path := derivedTestPath script_path
        if w.pathExists test_suite_path then
          let r := run_tests w p test_suite_path
          if r.2 then (r.1, true)
          else (r.1 ++ [Event.log LogLevel.error "Pipeline failed at testing stage"],
                false)
        else
          ([Event.log LogLevel.warning
              ("No test suite found at " ++ test_suite_path ++ ", skipping tests")],
           true)
    if t.2 then
      let d := deploy_to_environment w p script_path environment
      if d.2 then
        (e0 :: v.1 ++ t.1 ++ d.1 ++
          [Event.log LogLevel.info
            ("Pipeline completed successfully for " ++ script_path ++ " to " ++ environment)],
         true)
      else
        (e0 :: v.1 ++ t.1 ++ d.1 ++
          [Event.log LogLevel.error "Pipeline failed at deployment stage"],
         false)
    else (e0 :: v.1 ++ t.1, false)
  else
    (e0 :: v.1 ++ [Event.log LogLevel.error "Pipeline failed at validation stage"],
     false)

/-- Embedding of `__init__` together with `_load_config`: load the YAML
configuration (failures propagate), resolve the credential with the
environment variable taking precedence through Python `or`, and raise
when the resolved credential is falsy. -/
def mkPipeline (w : World) (config_path : String) :
    List Event × Except String Pipeline :=
  match w.files config_path with
  | none =>
    ([Event.log LogLevel.error
        ("Failed to load configuration: " ++ fileErrStr config_path)],
     Except.error (fileErrStr config_path))
  | some content =>
    match w.parseYaml content with
    | Except.error e =>
      ([Event.log LogLevel.error ("Failed to load configuration: " ++ e)],
       Except.error e)
    | Except.ok cfg =>
      let envv : JVal :=
        match w.env "CXONE_API_KEY" with
        | some s => JVal.jStr s
        | none => JVal.jNull
      let api_key := if truthy envv then envv else jGetD cfg "api_key" JVal.jNull
      if truthy api_key then
        ([Event.log LogLevel.info
            ("Initialized CXone deployment pipeline with config from " ++ config_path)],
         Except.ok
          { config_path := config_path
            config := cfg
            api_base_url := jGetD cfg "api_base_url" JVal.jNull
            api_key := api_key })
      else
        ([], Except.error
          "CXONE_API_KEY environment variable or api_key in config is required")

/-- Modelled from the spec: the conventional test-suite path as the spec
words it, a file named by the script base name followed by the `_tests`
suffix inside a `tests/` subdirectory next to the script. -/
def specConventionalTestPath (s : String) : String :=
  ⟨joinL (joinL (dirNameL s.data) "tests".data)
    (scriptStemL s.data ++ "_tests".data)⟩

/-- Sample pipeline state: base URL, credential, and a `dev` environment
with a business unit id. -/
def pOk : Pipeline :=
  { config_path := "cfg.yml"
    config := JVal.jObj
      [("api_base_url", JVal.jStr "https://api.example"),
       ("api_key", JVal.jStr "k"),
       ("environments",
        JVal.jObj [("dev", JVal.jObj [("business_unit_id", JVal.jStr "bu1")])])]
    api_base_url := JVal.jStr "https://api.example"
    api_key := JVal.jStr "k" }

/-- Sample pipeline state whose `dev` environment entry is an empty
settings mapping. -/
def pEmptyEnv : Pipeline :=
  { config_path := "cfg.yml"
    config := JVal.jObj
      [("api_base_url", JVal.jStr "https://api.example"),
       ("api_key", JVal.jStr "k"),
       ("environments", JVal.jObj [("dev", JVal.jObj [])])]
    api_base_url := JVal.jStr "https://api.example"
    api_key := JVal.jStr "k" }

/-- Sample world in which the remote validation verdict is negative with
one diagnostic. -/
def wInvalid : World :=
  { files := fun p => if p == "greeting.flow" then some "SCRIPT" else none
    parseYaml := fun _ => Except.ok JVal.jNull
    pathExists := fun _ => false
    env := fun _ => none
    http := fun _ _ _ => Except.ok (JVal.jObj
      [("valid", JVal.jBool false),
       ("errors",
        JVal.jArr [JVal.jObj [("message", JVal.jStr "bad"), ("line", JVal.jNum 3)]])])
    nowIso := "2026-10-12T00:00:00" }

/-- Sample world in which every remote call succeeds: validation passes,
the test run reports 2 of 3 passed with one failure entry, and the
deploy response carries no deployment identifier. -/
def wMixed : World :=
  { files := fun p =>
      if p == "greeting.flow" then some "SCRIPT"
      else if p == "suite.yml" then some "SUITE"
      else none
    parseYaml := fun _ => Except.ok (JVal.jObj [("cases", JVal.jArr [])])
    pathExists := fun _ => false
    env := fun _ => none
    http := fun u _ _ =>
      if u == "https://api.example/scripts/validate" then
        Except.ok (JVal.jObj [("valid", JVal.jBool true)])
      else if u == "https://api.example/tests/run" then
        Except.ok (JVal.jObj
          [("total", JVal.jNum 3), ("passed", JVal.jNum 2),
           ("failures",
            JVal.jArr [JVal.jObj
              [("name", JVal.jStr "t1"), ("message", JVal.jStr "boom")]])])
      else
        Except.ok (JVal.jObj [("message", JVal.jStr "quota exceeded")])
    nowIso := "2026-10-12T00:00:00" }

/-- Sample world in which every transport call raises. -/
def wHttpDown : World :=
  { files := fun p =>
      if p == "greeting.flow" then some "SCRIPT"
      else if p == "suite.yml" then some "SUITE"
      else none
    parseYaml := fun _ => Except.ok (JVal.jObj [("cases", JVal.jArr [])])
    pathExists := fun _ => true
    env := fun _ => none
    http := fun _ _ _ => Except.error "connection refused"
    nowIso := "2026-10-12T00:00:00" }

/-- Sample world for construction: the configuration file parses to a
mapping with no usable credential, and the credential environment
variable is unset. -/
def wCfgNoKey : World :=
  { files := fun p => if p == "cfg.yml" then some "CFG" else none
    parseYaml := fun _ => Except.ok (JVal.jObj [("api_base_url", JVal.jStr "https://api.example")])
    pathExists := fun _ => false
    env := fun _ => none
    http := fun _ _ _ => Except.error "unused"
    nowIso := "2026-10-12T00:00:00" }

/-- Sample world for construction: the credential environment variable
is set and the configuration file also carries a credential. -/
def wEnvKey : World :=
  { files := fun p => if p == "cfg.yml" then some "CFG" else none
    parseYaml := fun _ => Except.ok (JVal.jObj
      [("api_base_url", JVal.jStr "https://api.example"),
       ("api_key", JVal.jStr "cfgkey")])
    pathExists := fun _ => false
    env := fun v => if v == "CXONE_API_KEY" then some "secret" else none
    http := fun _ _ _ => Except.error "unused"
    nowIso := "2026-10-12T00:00:00" }

/-- Sample world in which validation and deployment both succeed and no
test-suite file exists anywhere. -/
def wDeployOk : World :=
  { files := fun p => if p == "greeting.flow" then some "SCRIPT" else none
    parseYaml := fun _ => Except.ok JVal.jNull
    pathExists := fun _ => false
    env := fun _ => none
    http := fun u _ _ =>
      if u == "https://api.example/scripts/validate" then
        Except.ok (JVal.jObj [("valid", JVal.jBool true)])
      else
        Except.ok (JVal.jObj [("deploymentId", JVal.jStr "dep-42")])
    nowIso := "2026-10-12T00:00:00" }

theorem hasCallTo_nil (ep : String) : hasCallTo [] ep = false := rfl

theorem hasCallTo_cons (e : Event) (tr : List Event) (ep : String) :
    hasCallTo (e :: tr) ep = (isCallTo ep e || hasCallTo tr ep) := by
  simp [hasCallTo, List.any_cons]

theorem hasCallTo_append (a b : List Event) (ep : String) :
    hasCallTo (a ++ b) ep = (hasCallTo a ep || hasCallTo b ep) := by
  simp [hasCallTo, List.any_append]

theorem hasCallTo_map_log {α : Type} (l : List α) (f : α → String)
    (lvl : LogLevel) (ep : String) :
    hasCallTo (l.map fun x => Event.log lvl (f x)) ep = false := by
  simp [hasCallTo, isCallTo]

theorem hasApiCall_append (a b : List Event) :
    hasApiCall (a ++ b) = (hasApiCall a || hasApiCall b) := by
  simp [hasApiCall, List.any_append]

theorem hasLog_append (a b : List Event) (lvl : LogLevel) (msg : String) :
    hasLog (a ++ b) lvl msg = (hasLog a lvl msg || hasLog b lvl msg) := by
  simp [hasLog, List.any_append]

/-- Every API call `validate_script` makes goes to `scripts/validate`. -/
theorem validate_only_calls (w : World) (p : Pipeline) (sp ep : String)
    (h : ep ≠ "scripts/validate") :
    hasCallTo (validate_script w p sp).1 ep = false := by
  have hne : ("scripts/validate" == ep) = false := by
    simpa [beq_iff_eq] using fun h' => h h'.symm
  cases hf : w.files sp with
  | none => simp [validate_script, hf, hasCallTo, isCallTo]
  | some c =>
    cases hh : w.http (apiUrl p "scripts/validate") "POST"
        (JVal.jObj [("content", JVal.jStr c)]) with
    | ok resp =>
      by_cases hv : truthy (jGetD resp "valid" (JVal.jBool false)) = true
      · simp [validate_script, apiRequest, hf, hh, hv, hasCallTo, isCallTo, hne]
      · simp only [Bool.not_eq_true] at hv
        simp [validate_script, apiRequest, hf, hh, hv, hasCallTo_cons,
          hasCallTo_append, hasCallTo_map_log, hasCallTo, isCallTo, hne]
    | error e =>
      simp [validate_script, apiRequest, hf, hh, hasCallTo, isCallTo, hne]

/-- Every API call `run_tests` makes goes to `tests/run`. -/
theorem run_tests_only_calls (w : World) (p : Pipeline) (tsp ep : String)
    (h : ep ≠ "tests/run") :
    hasCallTo (run_tests w p tsp).1 ep = false := by
  have hne : ("tests/run" == ep) = false := by
    simpa [beq_iff_eq] using fun h' => h h'.symm
  cases hf : w.files tsp with
  | none => simp [run_tests, hf, hasCallTo, isCallTo]
  | some c =>
    cases hp : w.parseYaml c with
    | error e => simp [run_tests, hf, hp, hasCallTo, isCallTo]
    | ok suite =>
      cases hh : w.http (apiUrl p "tests/run") "POST" suite with
      | ok resp =>
        simp [run_tests, apiRequest, hf, hp, hh, hasCallTo_cons,
          hasCallTo_append, hasCallTo_map_log, hasCallTo, isCallTo, hne]
      | error e =>
        simp [run_tests, apiRequest, hf, hp, hh, hasCallTo, isCallTo, hne]

/-- Every API call `deploy_to_environment` makes goes to
`scripts/deploy`. -/
theorem deploy_only_calls (w : World) (p : Pipeline) (sp env ep : String)
    (h : ep ≠ "scripts/deploy") :
    hasCallTo (deploy_to_environment w p sp env).1 ep = false := by
  have hne : ("scripts/deploy" == ep) = false := by
    simpa [beq_iff_eq] using fun h' => h h'.symm
  cases hf : w.files sp with
  | none => simp [deploy_to_environment, hf, hasCallTo, isCallTo]
  | some c =>
    by_cases he : truthy (deployEnvConfig p env) = true
    · cases hh : w.http (apiUrl p "scripts/deploy") "POST"
          (deployPayload w p sp env c) with
      | ok resp =>
        by_cases hd : truthy (jGetD resp "deploymentId" JVal.jNull) = true
        · simp [deploy_to_environment, apiRequest, hf, he, hh, hd,
            hasCallTo, isCallTo, hne]
        · simp only [Bool.not_eq_true] at hd
          simp [deploy_to_environment, apiRequest, hf, he, hh, hd,
            hasCallTo, isCallTo, hne]
      | error e =>
        simp [deploy_to_environment, apiRequest, hf, he, hh,
          hasCallTo, isCallTo, hne]
    · simp only [Bool.not_eq_true] at he
      simp [deploy_to_environment, hf, he, hasCallTo, isCallTo]

/-- The environment configuration `deploy_to_environment` resolves is
the entry of the environment mapping when one exists, and the empty
mapping default otherwise. -/
theorem deployEnvConfig_eq_entry (p : Pipeline) (env : String) :
    deployEnvConfig p env =
      match envEntry p env with
      | some v => v
      | none => JVal.jObj [] := by
  unfold deployEnvConfig envEntry
  cases hj : jGetD p.config "environments" (JVal.jObj []) with
  | jObj fs => cases lookupStr fs env <;> simp [jGetD]
  | jNull => simp [jGetD]
  | jBool b => simp [jGetD]
  | jNum n => simp [jGetD]
  | jStr s => simp [jGetD]
  | jArr xs => simp [jGetD]

/-- A falsy environment configuration makes `deploy_to_environment`
return `false` with no outbound API call, whether or not the script
file is readable. -/
theorem deploy_rejects_untruthy_env (w : World) (p : Pipeline) (sp env : String)
    (h : truthy (deployEnvConfig p env) = false) :
    (deploy_to_environment w p sp env).2 = false ∧
    hasApiCall (deploy_to_environment w p sp env).1 = false := by
  cases hf : w.files sp with
  | none => simp [deploy_to_environment, hf, hasApiCall, isApiCall]
  | some c => simp [deploy_to_environment, hf, h, hasApiCall, isApiCall]

/-- With validation passed, tests not skipped and no file at the
derived test-suite path, the pipeline outcome is exactly the deploy
outcome. -/
theorem pipeline_skips_missing_suite (w : World) (p : Pipeline) (sp env : String)
    (hv : (validate_script w p sp).2 = true)
    (hex : w.pathExists (derivedTestPath sp) = false) :
    (run_pipeline w p sp env false).2 = (deploy_to_environment w p sp env).2 := by
  cases hdep : (deploy_to_environment w p sp env).2 <;>
    simp [run_pipeline, hv, hex, hdep]

theorem takeWhile_append_stop {α : Type} (p : α → Bool) (xs ys : List α) (y : α)
    (hxs : ∀ x ∈ xs, p x = true) (hy : p y = false) :
    (xs ++ y :: ys).takeWhile p = xs := by
  induction xs with
  | nil =>
    rw [List.nil_append, List.takeWhile_cons_of_neg (by simp [hy])]
  | cons a as ih =>
    rw [List.cons_append,
      List.takeWhile_cons_of_pos (hxs a (List.mem_cons_self a as)),
      ih fun x hx => hxs x (List.mem_cons_of_mem a hx)]

theorem dropWhile_append_stop {α : Type} (p : α → Bool) (xs ys : List α) (y : α)
    (hxs : ∀ x ∈ xs, p x = true) (hy : p y = false) :
    (xs ++ y :: ys).dropWhile p = y :: ys := by
  induction xs with
  | nil =>
    rw [List.nil_append, List.dropWhile_cons_of_neg (by simp [hy])]
  | cons a as ih =>
    rw [List.cons_append,
      List.dropWhile_cons_of_pos (hxs a (List.mem_cons_self a as)),
      ih fun x hx => hxs x (List.mem_cons_of_mem a hx)]

theorem head_takeWhile_mem {α : Type} (l : List α) (q : α → Bool) (x : α)
    (xs : List α) (h : l.takeWhile q = x :: xs) : x ∈ l := by
  cases l with
  | nil => simp at h
  | cons a t =>
    rw [List.takeWhile_cons] at h
    by_cases hq : q a = true
    · rw [if_pos hq] at h
      injection h with h1 _
      exact h1 ▸ List.mem_cons_self a t
    · rw [if_neg hq] at h
      exact absurd h (by simp)

theorem reverse_cons_of_getLast? {α : Type} (l : List α) (c : α)
    (h : l.getLast? = some c) : ∃ t, l.reverse = c :: t := by
  have hh := List.head?_reverse l
  rw [h] at hh
  cases hr : l.reverse with
  | nil => rw [hr] at hh; simp at hh
  | cons a t =>
    rw [hr] at hh
    have ha : a = c := by simpa using hh
    exact ⟨t, by rw [ha]⟩

/-- C2: for every script path and every environment name that has no
entry in the environment mapping of the configuration,
`deploy_to_environment` returns `false` and performs no remote call. -/
theorem deploy_missing_env_no_network (w : World) (p : Pipeline) (sp env : String)
    (h : envEntry p env = none) :
    (deploy_to_environment w p sp env).2 = false ∧
    hasApiCall (deploy_to_environment w p sp env).1 = false := by
  have hc : truthy (deployEnvConfig p env) = false := by
    rw [deployEnvConfig_eq_entry, h]
    rfl
  exact deploy_rejects_untruthy_env w p sp env hc

theorem deploy_missing_env_no_network_witness :
    envEntry pOk "qa" = none ∧
    ((deploy_to_environment wDeployOk pOk "greeting.flow" "qa").2 = false ∧
     hasApiCall (deploy_to_environment wDeployOk pOk "greeting.flow" "qa").1 = false) :=
  ⟨rfl, deploy_missing_env_no_network wDeployOk pOk "greeting.flow" "qa" rfl⟩

/-- C10: an environment whose entry in the environment mapping exists
but is an empty settings mapping is treated exactly like a missing one:
`deploy_to_environment` returns `false` with no remote call. -/
theorem deploy_empty_env_entry_rejected (w : World) (p : Pipeline) (sp env : String)
    (h : envEntry p env = some (JVal.jObj [])) :
    (deploy_to_environment w p sp env).2 = false ∧
    hasApiCall (deploy_to_environment w p sp env).1 = false := by
  have hc : truthy (deployEnvConfig p env) = false := by
    rw [deployEnvConfig_eq_entry, h]
    rfl
  exact deploy_rejects_untruthy_env w p sp env hc

theorem deploy_empty_env_entry_rejected_witness :
    envEntry pEmptyEnv "dev" = some (JVal.jObj []) ∧
    ((deploy_to_environment wDeployOk pEmptyEnv "greeting.flow" "dev").2 = false ∧
     hasApiCall (deploy_to_environment wDeployOk pEmptyEnv "greeting.flow" "dev").1 = false) :=
  ⟨rfl, deploy_empty_env_entry_rejected wDeployOk pEmptyEnv "greeting.flow" "dev" rfl⟩

/-- C5: no stage propagates an exception; an unreadable file, a YAML
parse error, or a transport error (including a non-success HTTP status,
which the transport oracle reports as an error) is absorbed into the
return value `false` in every stage. -/
theorem stages_absorb_errors (w : World) (p : Pipeline) (sp tsp env : String) :
    (w.files sp = none →
      (validate_script w p sp).2 = false ∧
      (deploy_to_environment w p sp env).2 = false) ∧
    (w.files tsp = none → (run_tests w p tsp).2 = false) ∧
    (∀ c e, w.files tsp = some c → w.parseYaml c = Except.error e →
      (run_tests w p tsp).2 = false) ∧
    ((∀ u m d, ∃ e, w.http u m d = Except.error e) →
      (validate_script w p sp).2 = false ∧
      (run_tests w p tsp).2 = false ∧
      (deploy_to_environment w p sp env).2 = false) := by
  refine ⟨?_, ?_, ?_, ?_⟩
  · intro h
    exact ⟨by simp [validate_script, h], by simp [deploy_to_environment, h]⟩
  · intro h
    simp [run_tests, h]
  · intro c e hc he
    simp [run_tests, hc, he]
  · intro hh
    refine ⟨?_, ?_, ?_⟩
    · cases hf : w.files sp with
      | none => simp [validate_script, hf]
      | some c =>
        obtain ⟨e, he⟩ :=
          hh (apiUrl p "scripts/validate") "POST" (JVal.jObj [("content", JVal.jStr c)])
        simp [validate_script, apiRequest, hf, he]
    · cases hf : w.files tsp with
      | none => simp [run_tests, hf]
      | some c =>
        cases hpp : w.parseYaml c with
        | error e => simp [run_tests, hf, hpp]
        | ok suite =>
          obtain ⟨e, he⟩ := hh (apiUrl p "tests/run") "POST" suite
          simp [run_tests, apiRequest, hf, hpp, he]
    · cases hf : w.files sp with
      | none => simp [deploy_to_environment, hf]
      | some c =>
        by_cases ht : truthy (deployEnvConfig p env) = true
        · obtain ⟨e, he⟩ :=
            hh (apiUrl p "scripts/deploy") "POST" (deployPayload w p sp env c)
          simp [deploy_to_environment, apiRequest, hf, ht, he]
        · simp only [Bool.not_eq_true] at ht
          simp [deploy_to_environment, hf, ht]

theorem stages_absorb_errors_witness :
    (∀ u m d, ∃ e, wHttpDown.http u m d = Except.error e) ∧
    ((validate_script wHttpDown pOk "greeting.flow").2 = false ∧
     (run_tests wHttpDown pOk "suite.yml").2 = false ∧
     (deploy_to_environment wHttpDown pOk "greeting.flow" "dev").2 = false) :=
  ⟨fun _ _ _ => ⟨"connection refused", rfl⟩,
   (stages_absorb_errors wHttpDown pOk "greeting.flow" "suite.yml" "dev").2.2.2
     fun _ _ _ => ⟨"connection refused", rfl⟩⟩

/-- C3: when the test-suite file is readable, parses, and the remote
test-execution call succeeds with numeric counts, `run_tests` returns
`true` exactly when the reported passed count equals the reported total
count; when passed is below total it returns `false`, and every entry of
the reported failure list is logged. -/
theorem runTests_pass_iff_counts_equal (w : World) (p : Pipeline)
    (tsp c : String) (suite resp : JVal) (t pa : Int) (fs : List JVal)
    (hf : w.files tsp = some c)
    (hp : w.parseYaml c = Except.ok suite)
    (hh : w.http (apiUrl p "tests/run") "POST" suite = Except.ok resp)
    (ht : jGetD resp "total" (JVal.jNum 0) = JVal.jNum t)
    (hpa : jGetD resp "passed" (JVal.jNum 0) = JVal.jNum pa)
    (hfl : jGetD resp "failures" (JVal.jArr []) = JVal.jArr fs) :
    ((run_tests w p tsp).2 = true ↔ pa = t) ∧
    (pa < t → (run_tests w p tsp).2 = false) ∧
    (∀ f ∈ fs, hasLog (run_tests w p tsp).1 LogLevel.error (testFailureMsg f) = true) := by
  refine ⟨?_, ?_, ?_⟩
  · simp [run_tests, apiRequest, hf, hp, hh, ht, hpa, pyEq]
  · intro hlt
    have hne : pa ≠ t := ne_of_lt hlt
    simp [run_tests, apiRequest, hf, hp, hh, ht, hpa, pyEq, hne]
  · intro f hfm
    simp [run_tests, apiRequest, hf, hp, hh, hfl, jArrList, hasLog,
      List.any_append, isLog, levelEq]
    exact ⟨f, hfm, rfl⟩

/-- C4: when the script file is readable and the remote validation call
succeeds, `validate_script` returns `true` on a `valid: true` verdict,
and on a `valid: false` verdict with a non-empty error list it returns
`false` and logs the message and line of every diagnostic. -/
theorem validate_reports_server_verdict (w : World) (p : Pipeline)
    (sp c : String) (resp : JVal)
    (hf : w.files sp = some c)
    (hh : w.http (apiUrl p "scripts/validate") "POST"
        (JVal.jObj [("content", JVal.jStr c)]) = Except.ok resp) :
    (jGetD resp "valid" (JVal.jBool false) = JVal.jBool true →
      (validate_script w p sp).2 = true) ∧
    (∀ es, jGetD resp "valid" (JVal.jBool false) = JVal.jBool false →
      jGetD resp "errors" (JVal.jArr []) = JVal.jArr es → es ≠ [] →
      (validate_script w p sp).2 = false ∧
      ∀ er ∈ es, hasLog (validate_script w p sp).1 LogLevel.error
        (validationErrorMsg er) = true) := by
  constructor
  · intro hv
    simp [validate_script, apiRequest, hf, hh, hv, truthy]
  · intro es hv hes _
    constructor
    · simp [validate_script, apiRequest, hf, hh, hv, truthy]
    · intro er hmem
      simp [validate_script, apiRequest, hf, hh, hv, truthy, hes, jArrList,
        hasLog, List.any_append, isLog, levelEq]
      exact ⟨er, hmem, rfl⟩

/-- C7: when the script is readable, the environment is configured and
the remote deploy call succeeds, `deploy_to_environment` returns `true`
when the response carries a deployment identifier (a non-empty string)
and `false` when it carries none, logging the accompanying message. -/
theorem deploy_success_iff_deployment_id (w : World) (p : Pipeline)
    (sp env c : String) (resp : JVal)
    (hf : w.files sp = some c)
    (he : truthy (deployEnvConfig p env) = true)
    (hh : w.http (apiUrl p "scripts/deploy") "POST"
        (deployPayload w p sp env c) = Except.ok resp) :
    (∀ s, s ≠ "" → jGetD resp "deploymentId" JVal.jNull = JVal.jStr s →
      (deploy_to_environment w p sp env).2 = true) ∧
    (jGetD resp "deploymentId" JVal.jNull = JVal.jNull →
      (deploy_to_environment w p sp env).2 = false ∧
      hasLog (deploy_to_environment w p sp env).1 LogLevel.error
        ("Deployment failed: " ++
          pyStrOf (jGetD resp "message" (JVal.jStr "Unknown error"))) = true) := by
  have htn : truthy JVal.jNull = false := rfl
  constructor
  · intro s hs hd
    have hts : truthy (JVal.jStr s) = true := by simp [truthy, hs]
    simp [deploy_to_environment, apiRequest, hf, he, hh, hd, hts]
  · intro hd
    constructor
    · simp [deploy_to_environment, apiRequest, hf, he, hh, hd, htn]
    · simp [deploy_to_environment, apiRequest, hf, he, hh, hd, htn,
        hasLog, List.any_append, isLog, levelEq]

/-- C8: construction fails with the credential error whenever the
credential environment variable is absent (or empty, which Python `or`
treats as absent) and the configuration credential is falsy; and a
non-empty credential environment variable overrides the configuration
credential. -/
theorem construction_requires_credential (w : World) (cp content : String) (cfg : JVal)
    (hf : w.files cp = some content)
    (hp : w.parseYaml content = Except.ok cfg) :
    ((w.env "CXONE_API_KEY" = none ∨ w.env "CXONE_API_KEY" = some "") →
      truthy (jGetD cfg "api_key" JVal.jNull) = false →
      (mkPipeline w cp).2 =
        Except.error "CXONE_API_KEY environment variable or api_key in config is required") ∧
    (∀ v, v ≠ "" → w.env "CXONE_API_KEY" = some v →
      ∀ pl, (mkPipeline w cp).2 = Except.ok pl → pl.api_key = JVal.jStr v) := by
  have htn : truthy JVal.jNull = false := rfl
  have hte : truthy (JVal.jStr "") = false := rfl
  constructor
  · intro henv hk
    cases henv with
    | inl h => simp [mkPipeline, hf, hp, h, htn, hk]
    | inr h => simp [mkPipeline, hf, hp, h, hte, hk]
  · intro v hv henv pl hpl
    have htv : truthy (JVal.jStr v) = true := by simp [truthy, hv]
    simp [mkPipeline, hf, hp, henv, htv] at hpl
    subst hpl
    rfl

theorem runTests_pass_iff_counts_equal_witness :
    (2 : Int) < 3 ∧ (run_tests wMixed pOk "suite.yml").2 = false :=
  ⟨by norm_num,
   (runTests_pass_iff_counts_equal wMixed pOk "suite.yml" "SUITE"
      (JVal.jObj [("cases", JVal.jArr [])])
      (JVal.jObj
        [("total", JVal.jNum 3), ("passed", JVal.jNum 2),
         ("failures",
          JVal.jArr [JVal.jObj [("name", JVal.jStr "t1"), ("message", JVal.jStr "boom")]])])
      3 2
      [JVal.jObj [("name", JVal.jStr "t1"), ("message", JVal.jStr "boom")]]
      rfl rfl rfl rfl rfl rfl).2.1 (by norm_num)⟩

theorem validate_reports_server_verdict_witness :
    (validate_script wInvalid pOk "greeting.flow").2 = false ∧
    hasLog (validate_script wInvalid pOk "greeting.flow").1 LogLevel.error
      (validationErrorMsg
        (JVal.jObj [("message", JVal.jStr "bad"), ("line", JVal.jNum 3)])) = true := by
  have H := (validate_reports_server_verdict wInvalid pOk "greeting.flow" "SCRIPT"
      (JVal.jObj
        [("valid", JVal.jBool false),
         ("errors",
          JVal.jArr [JVal.jObj [("message", JVal.jStr "bad"), ("line", JVal.jNum 3)]])])
      rfl rfl).2
      [JVal.jObj [("message", JVal.jStr "bad"), ("line", JVal.jNum 3)]]
      rfl rfl (by simp)
  exact ⟨H.1, H.2 _ (by simp)⟩

theorem deploy_success_iff_deployment_id_witness :
    (deploy_to_environment wMixed pOk "greeting.flow" "dev").2 = false ∧
    hasLog (deploy_to_environment wMixed pOk "greeting.flow" "dev").1 LogLevel.error
      ("Deployment failed: " ++
        pyStrOf (jGetD (JVal.jObj [("message", JVal.jStr "quota exceeded")])
          "message" (JVal.jStr "Unknown error"))) = true :=
  (deploy_success_iff_deployment_id wMixed pOk "greeting.flow" "dev" "SCRIPT"
    (JVal.jObj [("message", JVal.jStr "quota exceeded")])
    rfl rfl rfl).2 rfl

theorem construction_requires_credential_witness :
    (mkPipeline wCfgNoKey "cfg.yml").2 =
      Except.error "CXONE_API_KEY environment variable or api_key in config is required" ∧
    ({ config_path := "cfg.yml",
       config := JVal.jObj
         [("api_base_url", JVal.jStr "https://api.example"),
          ("api_key", JVal.jStr "cfgkey")],
       api_base_url := JVal.jStr "https://api.example",
       api_key := JVal.jStr "secret" } : Pipeline).api_key = JVal.jStr "secret" :=
  ⟨(construction_requires_credential wCfgNoKey "cfg.yml" "CFG"
      (JVal.jObj [("api_base_url", JVal.jStr "https://api.example")]) rfl rfl).1
      (Or.inl rfl) rfl,
   (construction_requires_credential wEnvKey "cfg.yml" "CFG"
      (JVal.jObj
        [("api_base_url", JVal.jStr "https://api.example"),
         ("api_key", JVal.jStr "cfgkey")]) rfl rfl).2
      "secret" (by decide) rfl _ rfl⟩

/-- C1: `run_pipeline` runs validate, then test, then deploy, in that
order; the first failing stage makes it return `false` with no call to
any later stage endpoint; in particular a validation failure prevents
any test or deploy call, and on a full run the trace is the ordered
concatenation of the three stage traces. -/
theorem runPipeline_stage_order (w : World) (p : Pipeline) (sp env : String) (st : Bool) :
    ((validate_script w p sp).2 = false →
      (run_pipeline w p sp env st).2 = false ∧
      hasCallTo (run_pipeline w p sp env st).1 "tests/run" = false ∧
      hasCallTo (run_pipeline w p sp env st).1 "scripts/deploy" = false) ∧
    ((validate_script w p sp).2 = true → st = false →
      w.pathExists (derivedTestPath sp) = true →
      (run_tests w p (derivedTestPath sp)).2 = false →
      (run_pipeline w p sp env st).2 = false ∧
      hasCallTo (run_pipeline w p sp env st).1 "scripts/deploy" = false) ∧
    ((validate_script w p sp).2 = true →
      (deploy_to_environment w p sp env).2 = false →
      (run_pipeline w p sp env st).2 = false) ∧
    ((validate_script w p sp).2 = true → st = false →
      w.pathExists (derivedTestPath sp) = true →
      (run_tests w p (derivedTestPath sp)).2 = true →
      run_pipeline w p sp env st =
        (Event.log LogLevel.info
            ("Starting deployment pipeline for " ++ sp ++ " to " ++ env) ::
          (validate_script w p sp).1 ++ (run_tests w p (derivedTestPath sp)).1 ++
          (deploy_to_environment w p sp env).1 ++
          (if (deploy_to_environment w p sp env).2 then
            [Event.log LogLevel.info
              ("Pipeline completed successfully for " ++ sp ++ " to " ++ env)]
          else [Event.log LogLevel.error "Pipeline failed at deployment stage"]),
         (deploy_to_environment w p sp env).2)) := by
  have hvt := validate_only_calls w p sp "tests/run" (by decide)
  have hvd := validate_only_calls w p sp "scripts/deploy" (by decide)
  have hrd := run_tests_only_calls w p (derivedTestPath sp) "scripts/deploy" (by decide)
  refine ⟨?_, ?_, ?_, ?_⟩
  · intro hv
    refine ⟨?_, ?_, ?_⟩
    · simp [run_pipeline, hv]
    · simp [run_pipeline, hv, hasCallTo_cons, hasCallTo_append, hasCallTo_nil,
        hvt, isCallTo]
    · simp [run_pipeline, hv, hasCallTo_cons, hasCallTo_append, hasCallTo_nil,
        hvd, isCallTo]
  · intro hv hst hex htr
    subst hst
    refine ⟨?_, ?_⟩
    · simp [run_pipeline, hv, hex, htr]
    · simp [run_pipeline, hv, hex, htr, hasCallTo_cons, hasCallTo_append,
        hasCallTo_nil, hvd, hrd, isCallTo]
  · intro hv hd
    cases st with
    | true => simp [run_pipeline, hv, hd]
    | false =>
      by_cases hex : w.pathExists (derivedTestPath sp) = true
      · cases htr2 : (run_tests w p (derivedTestPath sp)).2 with
        | false => simp [run_pipeline, hv, hex, htr2]
        | true => simp [run_pipeline, hv, hex, htr2, hd]
      · simp only [Bool.not_eq_true] at hex
        simp [run_pipeline, hv, hex, hd]
  · intro hv hst hex htr
    subst hst
    cases hd : (deploy_to_environment w p sp env).2 with
    | false => simp [run_pipeline, hv, hex, htr, hd]
    | true => simp [run_pipeline, hv, hex, htr, hd]

theorem runPipeline_stage_order_witness :
    (validate_script wInvalid pOk "greeting.flow").2 = false ∧
    ((run_pipeline wInvalid pOk "greeting.flow" "dev" false).2 = false ∧
     hasCallTo (run_pipeline wInvalid pOk "greeting.flow" "dev" false).1 "tests/run" = false ∧
     hasCallTo (run_pipeline wInvalid pOk "greeting.flow" "dev" false).1 "scripts/deploy" = false) :=
  ⟨rfl, (runPipeline_stage_order wInvalid pOk "greeting.flow" "dev" false).1 rfl⟩

/-- C6: with tests not skipped, validation passed and no file at the
derived test-suite path, the pipeline logs a warning, never calls the
test endpoint, and its outcome is exactly the deploy outcome. -/
theorem missing_suite_skips_to_deploy (w : World) (p : Pipeline) (sp env : String)
    (hv : (validate_script w p sp).2 = true)
    (hex : w.pathExists (derivedTestPath sp) = false) :
    (run_pipeline w p sp env false).2 = (deploy_to_environment w p sp env).2 ∧
    hasLog (run_pipeline w p sp env false).1 LogLevel.warning
      ("No test suite found at " ++ derivedTestPath sp ++ ", skipping tests") = true ∧
    hasCallTo (run_pipeline w p sp env false).1 "tests/run" = false := by
  have h1 := validate_only_calls w p sp "tests/run" (by decide)
  have h2 := deploy_only_calls w p sp env "tests/run" (by decide)
  refine ⟨pipeline_skips_missing_suite w p sp env hv hex, ?_, ?_⟩
  · cases hd : (deploy_to_environment w p sp env).2 with
    | false =>
      simp [run_pipeline, hv, hex, hd, hasLog, List.any_append, isLog, levelEq]
    | true =>
      simp [run_pipeline, hv, hex, hd, hasLog, List.any_append, isLog, levelEq]
  · cases hd : (deploy_to_environment w p sp env).2 with
    | false =>
      simp [run_pipeline, hv, hex, hd, hasCallTo_cons, hasCallTo_append,
        hasCallTo_nil, h1, h2, isCallTo]
    | true =>
      simp [run_pipeline, hv, hex, hd, hasCallTo_cons, hasCallTo_append,
        hasCallTo_nil, h1, h2, isCallTo]

theorem missing_suite_skips_to_deploy_witness :
    (run_pipeline wDeployOk pOk "greeting.flow" "dev" false).2 =
      (deploy_to_environment wDeployOk pOk "greeting.flow" "dev").2 ∧
    hasLog (run_pipeline wDeployOk pOk "greeting.flow" "dev" false).1 LogLevel.warning
      ("No test suite found at " ++ derivedTestPath "greeting.flow" ++ ", skipping tests") = true ∧
    hasCallTo (run_pipeline wDeployOk pOk "greeting.flow" "dev" false).1 "tests/run" = false :=
  missing_suite_skips_to_deploy wDeployOk pOk "greeting.flow" "dev" rfl rfl

/-- C9 counterexample: at the script path `scripts/greeting.flow` the
test-suite path the code derives differs from the path the claim
describes (base name followed by the `_tests` suffix alone): the code
appends `_tests.yml`, not `_tests`. -/
theorem conventional_suffix_counterexample :
    derivedTestPath "scripts/greeting.flow" ≠
      specConventionalTestPath "scripts/greeting.flow" := by
  decide

/-- C9 (amended): for a script path `d/b` with directory part `d` (not
ending in a slash) and slash-free file part `b`, the conventional
test-suite path is the `tests/` subdirectory of the script directory
and inside it the derived base name followed by `_tests.yml` (the
`_tests` suffix plus the `.yml` extension); and absence of a file at
that path is not an error — the pipeline outcome is the deploy
outcome. -/
theorem derivedTestPath_shape (d b : List Char) (c : Char)
    (hc : (c == '/') = false)
    (hd : d.getLast? = some c)
    (hb : b.all (fun x => !(x == '/')) = true) :
    derivedTestPath ⟨d ++ '/' :: b⟩ =
      ⟨(d ++ '/' :: "tests".data) ++
        '/' :: ((b.takeWhile fun x => !(x == '.')) ++ "_tests.yml".data)⟩ ∧
    (∀ (w : World) (p : Pipeline) (env : String),
      (validate_script w p ⟨d ++ '/' :: b⟩).2 = true →
      w.pathExists (derivedTestPath ⟨d ++ '/' :: b⟩) = false →
      (run_pipeline w p ⟨d ++ '/' :: b⟩ env false).2 =
        (deploy_to_environment w p ⟨d ++ '/' :: b⟩ env).2) := by
  constructor
  · have hball : ∀ x ∈ b.reverse, (!(x == '/')) = true := fun x hx =>
      List.all_eq_true.mp hb x (List.mem_reverse.mp hx)
    have hrev : (d ++ '/' :: b).reverse = b.reverse ++ '/' :: d.reverse := by
      rw [List.reverse_append, List.reverse_cons, List.append_assoc]
      rfl
    have hbase : baseNameL (d ++ '/' :: b) = b := by
      unfold baseNameL
      rw [hrev, takeWhile_append_stop _ _ _ _ hball (by simp), List.reverse_reverse]
    have hhead : dirHeadL (d ++ '/' :: b) = d ++ ['/'] := by
      unfold dirHeadL
      rw [hrev, dropWhile_append_stop _ _ _ _ hball (by simp),
        List.reverse_cons, List.reverse_reverse]
    obtain ⟨t, hrevd⟩ := reverse_cons_of_getLast? d c hd
    have hdecomp : d = t.reverse ++ [c] := by
      have hrr := congrArg List.reverse hrevd
      rw [List.reverse_reverse] at hrr
      rw [hrr, List.reverse_cons]
    have hcd : c ∈ d := by
      rw [hdecomp]
      simp
    have hany : ((d ++ ['/']).any fun x => !(x == '/')) = true := by
      apply List.any_eq_true.mpr
      exact ⟨c, by simp [hcd], by simp [hc]⟩
    have hdirname : dirNameL (d ++ '/' :: b) = d := by
      simp only [dirNameL]
      rw [hhead, if_pos hany]
      have h1 : (d ++ ['/']).reverse = '/' :: d.reverse := by
        rw [List.reverse_append]
        rfl
      rw [h1, List.dropWhile_cons_of_pos (by simp), hrevd,
        List.dropWhile_cons_of_neg (by simp [hc]), ← hrevd, List.reverse_reverse]
    have hstem : scriptStemL (d ++ '/' :: b) = b.takeWhile fun x => !(x == '.') := by
      unfold scriptStemL
      rw [hbase]
    have hdne : d.isEmpty = false := by
      cases d with
      | nil => simp at hd
      | cons a t2 => rfl
    have hj1 : joinL d "tests".data = d ++ '/' :: "tests".data := by
      have h0 : startsWithSlash "tests".data = false := by decide
      have h2 : endsWithSlash d = false := by
        unfold endsWithSlash
        rw [hd]
        exact hc
      simp [joinL, h0, hdne, h2]
    have hsw2 : startsWithSlash
        ((b.takeWhile fun x => !(x == '.')) ++ "_tests.yml".data) = false := by
      cases hst2 : b.takeWhile (fun x => !(x == '.')) with
      | nil =>
        rw [List.nil_append]
        decide
      | cons x xs =>
        have hx : x ∈ b := head_takeWhile_mem b _ x xs hst2
        have hxs : (x == '/') = false := by
          have hax := List.all_eq_true.mp hb x hx
          simpa using hax
        rw [List.cons_append]
        simpa [startsWithSlash] using hxs
    have hie2 : (d ++ '/' :: "tests".data).isEmpty = false := by
      cases d <;> rfl
    have hes2 : endsWithSlash (d ++ '/' :: "tests".data) = false := by
      unfold endsWithSlash
      rw [List.getLast?_append]
      have hgl : ('/' :: "tests".data).getLast? = some 's' := by decide
      rw [hgl, Option.or_some]
      decide
    have hj2 : joinL (d ++ '/' :: "tests".data)
        ((b.takeWhile fun x => !(x == '.')) ++ "_tests.yml".data) =
        (d ++ '/' :: "tests".data) ++
          '/' :: ((b.takeWhile fun x => !(x == '.')) ++ "_tests.yml".data) := by
      simp [joinL, hsw2, hie2, hes2]
    show String.mk (joinL (joinL (dirNameL (d ++ '/' :: b)) "tests".data)
        (scriptStemL (d ++ '/' :: b) ++ "_tests.yml".data)) = _
    rw [hdirname, hstem, hj1, hj2]
  · intro w p env hv hex
    exact pipeline_skips_missing_suite w p _ env hv hex

theorem derivedTestPath_shape_witness :
    (('s' == '/') = false ∧ "scripts".data.getLast? = some 's' ∧
      "greeting.flow".data.all (fun x => !(x == '/')) = true) ∧
    derivedTestPath ⟨"scripts".data ++ '/' :: "greeting.flow".data⟩ =
      ⟨("scripts".data ++ '/' :: "tests".data) ++
        '/' :: (("greeting.flow".data.takeWhile fun x => !(x == '.')) ++
          "_tests.yml".data)⟩ :=
  ⟨⟨by decide, by decide, by decide⟩,
   (derivedTestPath_shape "scripts".data "greeting.flow".data 's'
     (by decide) (by decide) (by decide)).1⟩
